import Mathlib

/-
  Verification of the webhooktunnel client (src/whclient/client.go).

  Shallow embedding conventions:
  * An http.Response is modelled by the two pieces client.go reads from it:
    the status code and the header bag.  Header.Get returns the empty string
    for an absent key, so the bag is a total function String -> String.
    Status codes produced by the net/http stack are non-negative, so Nat
    stands in for the Go int and Nat division mirrors Go integer division
    on this domain.
  * A websocket dial is an oracle: the k-th dial attempt of one Connector
    invocation yields DialOutcome (success carries the response, failure
    carries the optional response).  Attempt 0 is the immediate dial in
    connectWithRetry; attempts 1, 2, ... are the backoff-loop dials.
  * Timers are modelled in discrete time starting at 0 when the loop starts.
    The budget timer fires at maxElapsedTime; the backoff timer fires at
    elapsed + currentDelay.  The select observes whichever fires first; the
    tie is resolved toward the budget timer (Go picks randomly at a tie; a
    dial at exactly the budget instant would not weaken any bound proved
    below).  Each Connector-level function returns, besides the result the
    Go code returns, the list of absolute times at which dials were
    attempted, so that timing claims are expressible.
  * The recursion of retryConn is driven by fuel maxElapsedTime + 1.  With
    positive delays at most maxElapsedTime dials fit strictly inside the
    budget, so the fuel-exhaustion branch (which yields the same timeout
    the budget timer would) is unreachable in every run the theorems below
    describe; the timing and timeout theorems hold for every fuel value.
  * The Client is a record of the mutable fields of the Go struct that the
    claims mention.  The mutex makes each locked section atomic, so Accept,
    the async body of Close, and reconnect are step functions on that
    record; the one-shot closed channel is the Boolean closedCh.  Streams
    are identified by the id of the session that produced them, and each
    step reports the list of sessions whose Close method it invoked.
-/

namespace Whclient

/-- The part of http.Response read by client.go: StatusCode and Header.
headers models Header.Get, which yields the empty string when the key is
absent. -/
structure Response where
  statusCode : Nat
  headers : String → String

/-- The response header carrying the relay-assigned public URL. -/
def urlHeaderKey : String := "x-webhooktunnel-client-url"

/-- A response with a given status and no headers at all. -/
def mkResp (n : Nat) : Response := ⟨n, fun _ => ""⟩

/-- shouldRetry from client.go: retry when there is no response, or when the
status class (integer division by 100) is neither 4 nor 2. -/
def shouldRetry : Option Response → Bool
  | none => true
  | some r => if r.statusCode / 100 == 4 || r.statusCode / 100 == 2 then false else true

/-- isAuthError from client.go: a response is an auth error exactly when its
status code is 401. -/
def isAuthError : Option Response → Bool
  | none => false
  | some r => r.statusCode == 401

/-- Outcome of one websocket dial: err == nil with a response, or err != nil
with an optional response. -/
inductive DialOutcome where
  | success (res : Response)
  | failure (res : Option Response)

/-- A dial outcome on which the loop keeps retrying: a failure the classifier
marks retryable. -/
def isRetryable : DialOutcome → Bool
  | .success _ => false
  | .failure res => shouldRetry res

/-- RetryConfig after defaultValues(), as the spec describes it: initial
delay, delay ceiling, total budget, growth factor. -/
structure RetryPolicy where
  initialDelay : Nat
  maxDelay : Nat
  maxElapsedTime : Nat
  multiplier : Nat
deriving DecidableEq

/-- Modelled from the spec: RetryConfig.nextDelay is not under src/ (only its
caller retryConn is); section 4.1 says the delay grows by a fixed
multiplicative rule and never exceeds an implementation-defined ceiling. -/
def RetryPolicy.nextDelay (p : RetryPolicy) (d : Nat) : Nat :=
  min (d * p.multiplier) p.maxDelay

/-- Result of one Connector invocation (connectWithRetry): the public URL on
success, or one of the sentinel errors ErrAuthFailed, ErrRetryFailed,
ErrRetryTimedOut. -/
inductive ConnResult where
  | connected (url : String)
  | authFailed
  | retryFailed
  | retryTimedOut
deriving DecidableEq

/-- The backoff loop of retryConn, one iteration per fuel unit.  k is the
index of the next dial, elapsed the current absolute time, d the armed
backoff delay.  The budget timer fires at maxElapsedTime; if it fires no
later than the backoff timer the loop returns ErrRetryTimedOut, otherwise
the dial at time elapsed + d is attempted and classified exactly as in the
Go loop.  The second component lists the dial times. -/
def retryConnAux (p : RetryPolicy) (dials : Nat → DialOutcome) :
    Nat → Nat → Nat → Nat → ConnResult × List Nat
  | 0, _, _, _ => (.retryTimedOut, [])
  | fuel + 1, k, elapsed, d =>
    if p.maxElapsedTime ≤ elapsed + d then (.retryTimedOut, [])
    else
      match dials k with
      | .success res => (.connected (res.headers urlHeaderKey), [elapsed + d])
      | .failure res =>
        if shouldRetry res then
          ((retryConnAux p dials fuel (k + 1) (elapsed + d) (p.nextDelay d)).1,
            (elapsed + d) ::
              (retryConnAux p dials fuel (k + 1) (elapsed + d) (p.nextDelay d)).2)
        else (.retryFailed, [elapsed + d])

/-- retryConn from client.go: the loop starts at time 0 with the initial
delay armed and dials attempt indices 1, 2, ... -/
def retryConn (p : RetryPolicy) (dials : Nat → DialOutcome) : ConnResult × List Nat :=
  retryConnAux p dials (p.maxElapsedTime + 1) 1 0 p.initialDelay

/-- One invocation of the Connector, as data: whether IsTokenUsable holds for
the current token, whether the configurer call (made only when it does not)
succeeds, the retry policy, and the dial oracle. -/
structure ConnInput where
  tokenUsable : Bool
  configOk : Bool
  policy : RetryPolicy
  dials : Nat → DialOutcome

/-- connectWithRetry from client.go.  When the token is unusable and the
configurer fails it returns ErrRetryFailed at once (no dial).  Otherwise
the immediate dial at time 0 is classified: success yields the public-URL
header value; a retryable failure enters retryConn; a 401 yields
ErrAuthFailed; any other non-retryable failure yields ErrRetryFailed. -/
def connectWithRetry (i : ConnInput) : ConnResult × List Nat :=
  if i.tokenUsable = false ∧ i.configOk = false then (.retryFailed, [])
  else
    match i.dials 0 with
    | .success res => (.connected (res.headers urlHeaderKey), [0])
    | .failure res =>
      if shouldRetry res then
        ((retryConn i.policy i.dials).1, 0 :: (retryConn i.policy i.dials).2)
      else if isAuthError res then (.authFailed, [0])
      else (.retryFailed, [0])

/-- clientState from client.go (stateClosed is declared but never assigned). -/
inductive CState where
  | running
  | broken
  | closed
deriving DecidableEq

/-- The sentinel errors of the whclient package that the client stores or
returns: ErrClientClosed, ErrClientReconnecting, ErrAuthFailed,
ErrRetryFailed, ErrRetryTimedOut. -/
inductive WErr where
  | clientClosed
  | clientReconnecting
  | authFailed
  | retryFailed
  | retryTimedOut
deriving DecidableEq

/-- The mutable fields of the Client struct that the claims mention.
closedCh is true once the closed channel has been closed; session holds the
id of the current wsmux session, if any. -/
structure ClientM where
  state : CState
  acceptErr : Option WErr
  session : Option Nat
  url : String
  closedCh : Bool
deriving DecidableEq

/-- What one Accept call produces: the accepted stream (identified by the
session that produced it), the returned error, the client state after the
call, and whether a reconnect goroutine was spawned. -/
structure AcceptRes where
  stream : Option Nat
  err : Option WErr
  post : ClientM
  spawned : Bool
deriving DecidableEq

/-- Accept from client.go, as one step.  sessionOk tells whether the
delegated session.Accept call succeeded.  The closed channel is polled
first; then, under the lock, a broken or closed client returns the stored
acceptErr; a running client delegates, and on session failure flips to
broken, stores ErrClientReconnecting, spawns reconnect and returns that
same error. -/
def Accept (c : ClientM) (sessionOk : Bool) : AcceptRes :=
  if c.closedCh then ⟨none, some .clientClosed, c, false⟩
  else if c.state = .broken ∨ c.state = .closed then ⟨none, c.acceptErr, c, false⟩
  else if sessionOk then ⟨c.session, none, c, false⟩
  else ⟨none, some .clientReconnecting,
    { c with state := .broken, acceptErr := some .clientReconnecting }, true⟩

/-- Close from client.go, the synchronous part: if the closed channel already
fired, return nil and do nothing; otherwise close the channel and spawn the
asynchronous cleanup goroutine.  Yields (returned error, new state, whether
the cleanup goroutine was spawned). -/
def Close (c : ClientM) : Option WErr × ClientM × Bool :=
  if c.closedCh then (none, c, false)
  else (none, { c with closedCh := true }, true)

/-- The asynchronous body of Close: under the lock, store ErrClientClosed as
the pending accept error and close the current session.  Yields the new
state and the sessions whose Close was invoked. -/
def closeCleanup (c : ClientM) : ClientM × List Nat :=
  ({ c with acceptErr := some .clientClosed }, c.session.toList)

/-- reconnect from client.go, as one locked step, parametrised by what its
connectWithRetry call returned and by the id of the session wsmux.Client
would create.  On any connector error it stores ErrRetryFailed and returns;
on success it closes the previous session (if any), installs the new
session and URL, sets the state to running and clears the pending error.
It never looks at the closed channel.  Yields the new state and the
sessions whose Close was invoked. -/
def reconnect (c : ClientM) (conn : ConnResult) (newSession : Nat) : ClientM × List Nat :=
  match conn with
  | .connected u =>
    ({ c with session := some newSession, url := u,
              state := .running, acceptErr := none }, c.session.toList)
  | _ => ({ c with acceptErr := some .retryFailed }, [])

/-- URL from client.go: the atomically stored public URL. -/
def URL (c : ClientM) : String := c.url

/-- New from client.go: the first configurer call must succeed, then a
Connector invocation must succeed; the fresh client is running, with no
pending error, the new session installed, the reported URL stored, and the
closed channel open. -/
def New (firstConfigOk : Bool) (i : ConnInput) (sessId : Nat) : Option ClientM :=
  if firstConfigOk = false then none
  else
    match connectWithRetry i with
    | (.connected u, _) => some ⟨.running, none, some sessId, u, false⟩
    | _ => none

/-! Concrete example inputs used by witnesses and counterexamples. -/

/-- Example retry policy: initial delay 10, delay ceiling 100, budget 50,
growth factor 2. -/
def pEx : RetryPolicy := ⟨10, 100, 50, 2⟩

/-- Every dial fails with no response at all. -/
def dialsFailEx : Nat → DialOutcome := fun _ => .failure none

/-! Helper lemmas about the backoff loop. -/

/-- Every dial time the loop records lies strictly inside the budget. -/
theorem retryConnAux_times_lt (p : RetryPolicy) (dials : Nat → DialOutcome) :
    ∀ fuel k elapsed d, ∀ t ∈ (retryConnAux p dials fuel k elapsed d).2,
      t < p.maxElapsedTime := by
  intro fuel
  induction fuel with
  | zero =>
    intro k elapsed d t ht
    simp [retryConnAux] at ht
  | succ n ih =>
    intro k elapsed d t ht
    simp only [retryConnAux] at ht
    by_cases hb : p.maxElapsedTime ≤ elapsed + d
    · rw [if_pos hb] at ht
      simp at ht
    · rw [if_neg hb] at ht
      cases hdk : dials k with
      | success res =>
        rw [hdk] at ht
        simp at ht
        omega
      | failure res =>
        rw [hdk] at ht
        by_cases hr : shouldRetry res = true
        · simp [hr] at ht
          rcases ht with h1 | h2
          · omega
          · exact ih (k + 1) (elapsed + d) (p.nextDelay d) t h2
        · simp [hr] at ht
          omega

/-- If every dial outcome is a retryable failure, the loop returns
ErrRetryTimedOut. -/
theorem retryConnAux_timedOut (p : RetryPolicy) (dials : Nat → DialOutcome)
    (h : ∀ j, isRetryable (dials j) = true) :
    ∀ fuel k elapsed d, (retryConnAux p dials fuel k elapsed d).1 = .retryTimedOut := by
  intro fuel
  induction fuel with
  | zero =>
    intro k elapsed d
    simp [retryConnAux]
  | succ n ih =>
    intro k elapsed d
    simp only [retryConnAux]
    by_cases hb : p.maxElapsedTime ≤ elapsed + d
    · rw [if_pos hb]
    · rw [if_neg hb]
      have hk := h k
      cases hdk : dials k with
      | success res =>
        rw [hdk] at hk
        simp [isRetryable] at hk
      | failure res =>
        rw [hdk] at hk
        simp only [isRetryable] at hk
        simp [hk]
        exact ih (k + 1) (elapsed + d) (p.nextDelay d)

/-- C8: the bounded retry loop always terminates (it is a total function of
its inputs); started at time 0, it attempts no dial at or after
maxElapsedTime; and when every dial outcome it could observe is a retryable
failure — no success and nothing non-retryable before the budget elapses —
it returns ErrRetryTimedOut.  The race between the budget timer and the
delay timer is the guard of retryConnAux: whichever fires first is
observed. -/
theorem c8_retry_loop_bounded (p : RetryPolicy) (dials : Nat → DialOutcome) :
    (∀ t ∈ (retryConn p dials).2, t < p.maxElapsedTime) ∧
      ((∀ j, isRetryable (dials j) = true) →
        (retryConn p dials).1 = ConnResult.retryTimedOut) := by
  constructor
  · exact retryConnAux_times_lt p dials (p.maxElapsedTime + 1) 1 0 p.initialDelay
  · intro h
    exact retryConnAux_timedOut p dials h (p.maxElapsedTime + 1) 1 0 p.initialDelay

/-- C8 witness: with policy pEx and dials that always fail with no response,
all attempt times are inside the budget and the loop times out. -/
theorem c8_retry_loop_bounded_witness :
    (∀ t ∈ (retryConn pEx dialsFailEx).2, t < pEx.maxElapsedTime) ∧
      (retryConn pEx dialsFailEx).1 = ConnResult.retryTimedOut :=
  ⟨(c8_retry_loop_bounded pEx dialsFailEx).1,
    (c8_retry_loop_bounded pEx dialsFailEx).2 (fun _ => rfl)⟩

/-- C1 counterexample: the claim says every response with status in 200 to
399 (excluding 401) is non-retryable, and that ShouldRetry occurs exactly
for no response or status at least 500; but shouldRetry classifies a 302
response (a 3xx, below 500) as retryable. -/
theorem c1_counterexample :
    shouldRetry (some (mkResp 302)) = true ∧
      200 ≤ 302 ∧ 302 ≤ 399 ∧ 302 ≠ 401 ∧ ¬(500 ≤ 302) :=
  ⟨rfl, by decide, by decide, by decide, by decide⟩

/-- C1 amended: the classifier is a pure total function of the optional
response; it yields ShouldRetry exactly when there is no response at all or
the status class (integer division by 100) is neither 2 nor 4 — so 1xx,
3xx and 5xx-and-above responses are retryable, while every 2xx or 4xx
response (401 among them) is non-retryable. -/
theorem c1_classifier (r : Option Response) :
    shouldRetry r = true ↔
      (r = none ∨ ∃ resp, r = some resp ∧
        resp.statusCode / 100 ≠ 2 ∧ resp.statusCode / 100 ≠ 4) := by
  cases r with
  | none => simp [shouldRetry]
  | some resp =>
    simp only [shouldRetry, Option.some.injEq, reduceCtorEq, false_or]
    constructor
    · intro h
      by_cases h4 : resp.statusCode / 100 = 4
      · simp [h4] at h
      · by_cases h2 : resp.statusCode / 100 = 2
        · simp [h2] at h
        · exact ⟨resp, rfl, h2, h4⟩
    · rintro ⟨resp2, hr2, h2, h4⟩
      cases hr2
      simp [h2, h4]

/-- Dial-outcome oracle for the C2 counterexample: the immediate attempt
gets a 503 response, the first backoff attempt gets a 401 response. -/
def d2Ex : Nat → DialOutcome := fun k =>
  match k with
  | 0 => .failure (some (mkResp 503))
  | 1 => .failure (some (mkResp 401))
  | _ => .failure none

/-- Connector input for the C2 counterexample. -/
def i2Ex : ConnInput := ⟨true, true, pEx, d2Ex⟩

/-- C2 counterexample: the first dial yields a retryable 503, the dial inside
the backoff loop yields a 401, yet the Connector returns ErrRetryFailed —
not ErrAuthFailed — because retryConn never consults isAuthError. -/
theorem c2_counterexample :
    i2Ex.dials 1 = DialOutcome.failure (some (mkResp 401)) ∧
      connectWithRetry i2Ex = (ConnResult.retryFailed, [0, 10]) ∧
      (connectWithRetry i2Ex).1 ≠ ConnResult.authFailed :=
  ⟨rfl, rfl, by decide⟩

/-- C2 amended: a 401 response on the initial immediate dial attempt makes
the Connector return ErrAuthFailed with no retry attempt; but a 401
response on an attempt inside the backoff retry loop terminates the loop
with ErrRetryFailed, since the loop only distinguishes retryable from
non-retryable outcomes. -/
theorem c2_auth_initial_vs_loop :
    (∀ (i : ConnInput) (r : Response),
      (i.tokenUsable = true ∨ i.configOk = true) →
      i.dials 0 = DialOutcome.failure (some r) → r.statusCode = 401 →
      connectWithRetry i = (ConnResult.authFailed, [0])) ∧
    (∀ (p : RetryPolicy) (dials : Nat → DialOutcome) (r : Response),
      dials 1 = DialOutcome.failure (some r) → r.statusCode = 401 →
      p.initialDelay < p.maxElapsedTime →
      retryConn p dials = (ConnResult.retryFailed, [p.initialDelay])) := by
  constructor
  · intro i r hu h0 h401
    have hcond : ¬(i.tokenUsable = false ∧ i.configOk = false) := by
      rcases hu with h | h <;> simp [h]
    rw [connectWithRetry, if_neg hcond, h0]
    simp [shouldRetry, isAuthError, h401]
  · intro p dials r h1 h401 hlt
    rw [retryConn]
    rw [retryConnAux]
    rw [if_neg (by omega), h1]
    simp [shouldRetry, h401]

/-- Dial-outcome oracle for the C2 witness: every attempt gets a 401. -/
def d2aEx : Nat → DialOutcome := fun _ => .failure (some (mkResp 401))

/-- Connector input for the C2 witness. -/
def i2aEx : ConnInput := ⟨true, true, pEx, d2aEx⟩

/-- C2 witness: a 401 on the immediate attempt yields ErrAuthFailed at once;
a 401 on the first loop attempt yields ErrRetryFailed after one dial. -/
theorem c2_auth_initial_vs_loop_witness :
    connectWithRetry i2aEx = (ConnResult.authFailed, [0]) ∧
      retryConn pEx d2Ex = (ConnResult.retryFailed, [10]) :=
  ⟨c2_auth_initial_vs_loop.1 i2aEx (mkResp 401) (Or.inl rfl) rfl rfl,
    c2_auth_initial_vs_loop.2 pEx d2Ex (mkResp 401) rfl rfl (by decide)⟩

/-- A broken client, not yet closed, used by the C3 counterexample. -/
def c3Ex : ClientM := ⟨.broken, some .clientReconnecting, some 1, "old", false⟩

/-- C3 counterexample: after Close has fired the shutdown signal, a
reconnect whose Connector call succeeds still installs a new session,
stores a new public URL and returns the client to the running state —
reconnect never re-checks the closed channel, so Closed is not terminal
for the internal state. -/
theorem c3_counterexample :
    (Close c3Ex).2.1.closedCh = true ∧
      (reconnect (Close c3Ex).2.1 (ConnResult.connected "new") 2).1.state = CState.running ∧
      (reconnect (Close c3Ex).2.1 (ConnResult.connected "new") 2).1.session = some 2 ∧
      (reconnect (Close c3Ex).2.1 (ConnResult.connected "new") 2).1.url = "new" :=
  ⟨rfl, rfl, rfl, rfl⟩

/-- C3 amended: after close() has fired, a repair in flight or triggered
afterwards that succeeds does install a new session, store the new public
URL and set the state back to running (the shutdown signal is not
re-checked before installing); the closure stays externally visible only
because Accept polls the closed channel first and keeps returning
ErrClientClosed. -/
theorem c3_reconnect_after_close (c : ClientM) (u : String) (ns : Nat)
    (hc : c.closedCh = true) :
    (reconnect c (ConnResult.connected u) ns).1.state = CState.running ∧
      (reconnect c (ConnResult.connected u) ns).1.session = some ns ∧
      (reconnect c (ConnResult.connected u) ns).1.url = u ∧
      ∀ ok, Accept (reconnect c (ConnResult.connected u) ns).1 ok =
        ⟨none, some WErr.clientClosed, (reconnect c (ConnResult.connected u) ns).1, false⟩ := by
  refine ⟨rfl, rfl, rfl, fun ok => ?_⟩
  simp [Accept, reconnect, hc]

/-- A broken client whose closed channel has already fired, used by the C3
witness. -/
def c3aEx : ClientM := ⟨.broken, some .clientReconnecting, some 1, "old", true⟩

/-- C3 witness: on a concrete closed client, a successful reconnect installs
session 2 and URL new and sets the state to running, while Accept still
returns ErrClientClosed. -/
theorem c3_reconnect_after_close_witness :
    (reconnect c3aEx (ConnResult.connected "new") 2).1.state = CState.running ∧
      (reconnect c3aEx (ConnResult.connected "new") 2).1.session = some 2 ∧
      (reconnect c3aEx (ConnResult.connected "new") 2).1.url = "new" ∧
      ∀ ok, Accept (reconnect c3aEx (ConnResult.connected "new") 2).1 ok =
        ⟨none, some WErr.clientClosed, (reconnect c3aEx (ConnResult.connected "new") 2).1, false⟩ :=
  c3_reconnect_after_close c3aEx "new" 2 rfl

/-- C4: on a client whose closed channel has not fired, (a) if the client is
running and the delegated session accept fails, Accept returns the
ErrClientReconnecting error with no stream, flips the state to broken,
stores ErrClientReconnecting as the pending error, and spawns the
reconnect goroutine — it does not wait for repair; (b) if the client is not
running, Accept returns the stored pending error immediately, with no
stream, no state change and no spawned repair. -/
theorem c4_accept (c : ClientM) (ok : Bool) (hc : c.closedCh = false) :
    (c.state = CState.running → ok = false →
      Accept c ok = ⟨none, some WErr.clientReconnecting,
        { c with state := CState.broken, acceptErr := some WErr.clientReconnecting }, true⟩) ∧
    (c.state ≠ CState.running → Accept c ok = ⟨none, c.acceptErr, c, false⟩) := by
  constructor
  · intro hs hok
    simp [Accept, hc, hs, hok]
  · intro hs
    have hbc : c.state = CState.broken ∨ c.state = CState.closed := by
      cases h : c.state <;> simp_all
    simp [Accept, hc, hbc]

/-- A healthy running client used by the C4 witness. -/
def c4runEx : ClientM := ⟨.running, none, some 3, "u", false⟩

/-- A broken client used by the C4 witness. -/
def c4brkEx : ClientM := ⟨.broken, some .clientReconnecting, some 3, "u", false⟩

/-- C4 witness: a failing session accept on a concrete running client flips
it to broken, stores and returns ErrClientReconnecting and spawns repair; a
concrete broken client gets its stored error back unchanged. -/
theorem c4_accept_witness :
    Accept c4runEx false = ⟨none, some WErr.clientReconnecting,
      { c4runEx with state := CState.broken,
                     acceptErr := some WErr.clientReconnecting }, true⟩ ∧
      Accept c4brkEx true = ⟨none, c4brkEx.acceptErr, c4brkEx, false⟩ :=
  ⟨(c4_accept c4runEx false rfl).1 rfl rfl,
    (c4_accept c4brkEx true rfl).2 (by decide)⟩

/-- C5: a successful repair of a broken, not-closed client closes the
previous session exactly once, installs the new session and the new public
URL, clears the pending accept error and sets the state to running; the
next Accept call then delegates to the new session and yields its stream
with no error. -/
theorem c5_reconnect_success (c : ClientM) (u : String) (ns old : Nat)
    (_hs : c.state = CState.broken) (hc : c.closedCh = false)
    (hold : c.session = some old) :
    reconnect c (ConnResult.connected u) ns =
      ({ c with session := some ns, url := u,
                state := CState.running, acceptErr := none }, [old]) ∧
      Accept (reconnect c (ConnResult.connected u) ns).1 true =
        ⟨some ns, none, (reconnect c (ConnResult.connected u) ns).1, false⟩ := by
  constructor
  · simp [reconnect, hold]
  · simp [Accept, reconnect, hc]

/-- A broken client used by the C5 witness. -/
def c5Ex : ClientM := ⟨.broken, some .clientReconnecting, some 7, "old", false⟩

/-- C5 witness: repairing a concrete broken client with session 7 closes
exactly session 7, installs session 9 and the new URL, clears the error,
runs again, and the next Accept yields a stream from session 9. -/
theorem c5_reconnect_success_witness :
    reconnect c5Ex (ConnResult.connected "newurl") 9 =
      ({ c5Ex with session := some 9, url := "newurl",
                   state := CState.running, acceptErr := none }, [7]) ∧
      Accept (reconnect c5Ex (ConnResult.connected "newurl") 9).1 true =
        ⟨some 9, none, (reconnect c5Ex (ConnResult.connected "newurl") 9).1, false⟩ :=
  c5_reconnect_success c5Ex "newurl" 9 7 rfl rfl rfl

/-- A broken client used by the C6 counterexample. -/
def c6Ex : ClientM := ⟨.broken, some .clientReconnecting, some 1, "old", false⟩

/-- C6 counterexample: when the Connector fails with ErrAuthFailed, the
repair stores ErrRetryFailed — not the authentication failure — as the
pending error, and a timed-out Connector is likewise stored as
ErrRetryFailed: the specific failures are collapsed. -/
theorem c6_counterexample :
    (reconnect c6Ex ConnResult.authFailed 0).1.acceptErr = some WErr.retryFailed ∧
      (reconnect c6Ex ConnResult.authFailed 0).1.acceptErr ≠ some WErr.authFailed ∧
      (reconnect c6Ex ConnResult.retryTimedOut 0).1.acceptErr = some WErr.retryFailed :=
  ⟨rfl, by decide, rfl⟩

/-- C6 amended: every failed repair attempt leaves the client broken and
stores the one generic ErrRetryFailed as the pending error, whatever
terminal error the Connector returned — authentication failures and budget
exhaustion are collapsed into ErrRetryFailed. -/
theorem c6_reconnect_failure (c : ClientM) (e : ConnResult) (ns : Nat)
    (hs : c.state = CState.broken) (he : ∀ u, e ≠ ConnResult.connected u) :
    reconnect c e ns = ({ c with acceptErr := some WErr.retryFailed }, []) ∧
      (reconnect c e ns).1.state = CState.broken := by
  cases e with
  | connected u => exact absurd rfl (he u)
  | authFailed => exact ⟨rfl, hs⟩
  | retryFailed => exact ⟨rfl, hs⟩
  | retryTimedOut => exact ⟨rfl, hs⟩

/-- A broken client used by the C6 witness. -/
def c6aEx : ClientM := ⟨.broken, some .clientReconnecting, some 1, "old", false⟩

/-- C6 witness: a timed-out repair of a concrete broken client stores
ErrRetryFailed and leaves the state broken. -/
theorem c6_reconnect_failure_witness :
    reconnect c6aEx ConnResult.retryTimedOut 0 =
      ({ c6aEx with acceptErr := some WErr.retryFailed }, []) ∧
      (reconnect c6aEx ConnResult.retryTimedOut 0).1.state = CState.broken :=
  c6_reconnect_failure c6aEx ConnResult.retryTimedOut 0 rfl (fun _ h => nomatch h)

/-- C7: Close always returns success; after any Close call the closed
channel has fired; a second Close is a strict no-op returning success, so N
calls have the effect of one; every Accept call made after any Close
returns ErrClientClosed and no stream; the first Close on an open client
fires the signal and spawns the cleanup goroutine exactly once, and a
Close on an already-closed client changes nothing and spawns nothing. -/
theorem c7_close_idempotent (c : ClientM) (ok : Bool) :
    (Close c).1 = none ∧
      (Close c).2.1.closedCh = true ∧
      Close (Close c).2.1 = (none, (Close c).2.1, false) ∧
      Accept (Close c).2.1 ok = ⟨none, some WErr.clientClosed, (Close c).2.1, false⟩ ∧
      (c.closedCh = false → (Close c).2 = ({ c with closedCh := true }, true)) ∧
      (c.closedCh = true → Close c = (none, c, false)) := by
  by_cases h : c.closedCh <;> simp [Close, Accept, h]

/-- A healthy running client used by the C7 witness. -/
def c7Ex : ClientM := ⟨.running, none, some 3, "u", false⟩

/-- C7 witness: on a concrete open client, Close succeeds, fires the signal,
is a no-op the second time, makes Accept return ErrClientClosed, and the
first call spawned the cleanup. -/
theorem c7_close_idempotent_witness :
    (Close c7Ex).1 = none ∧
      (Close c7Ex).2.1.closedCh = true ∧
      Close (Close c7Ex).2.1 = (none, (Close c7Ex).2.1, false) ∧
      Accept (Close c7Ex).2.1 true =
        ⟨none, some WErr.clientClosed, (Close c7Ex).2.1, false⟩ ∧
      (Close c7Ex).2 = ({ c7Ex with closedCh := true }, true) :=
  ⟨(c7_close_idempotent c7Ex true).1,
    (c7_close_idempotent c7Ex true).2.1,
    (c7_close_idempotent c7Ex true).2.2.1,
    (c7_close_idempotent c7Ex true).2.2.2.1,
    (c7_close_idempotent c7Ex true).2.2.2.2.1 rfl⟩

/-- Connector input for the C9 counterexample: unusable token and failing
configurer. -/
def i9aEx : ConnInput := ⟨false, false, pEx, dialsFailEx⟩

/-- Dial oracle that always gets a non-retryable 404 response. -/
def d404Ex : Nat → DialOutcome := fun _ => .failure (some (mkResp 404))

/-- Connector input whose immediate dial fails non-retryably, for comparison
in the C9 counterexample. -/
def i9bEx : ConnInput := ⟨true, true, pEx, d404Ex⟩

/-- C9 counterexample: when the credential is unusable and the refresh
fails, the Connector does fail immediately with no dial, but the error is
ErrRetryFailed — exactly the error a non-retryable dial outcome produces —
so it is not a distinct configuration error distinguishable from the
dial-related failures. -/
theorem c9_counterexample :
    connectWithRetry i9aEx = (ConnResult.retryFailed, []) ∧
      connectWithRetry i9bEx = (ConnResult.retryFailed, [0]) ∧
      (connectWithRetry i9aEx).1 = (connectWithRetry i9bEx).1 :=
  ⟨rfl, rfl, rfl⟩

/-- C9 amended: when the current credential is unusable and the Configurer
refresh fails, the Connector fails immediately — no dial is attempted and
the retry loop is never entered — but with the shared ErrRetryFailed
sentinel rather than a distinct configuration error. -/
theorem c9_config_refresh_failure (i : ConnInput)
    (ht : i.tokenUsable = false) (hg : i.configOk = false) :
    connectWithRetry i = (ConnResult.retryFailed, []) := by
  simp [connectWithRetry, ht, hg]

/-- Connector input for the C9 witness. -/
def i9cEx : ConnInput := ⟨false, false, pEx, d404Ex⟩

/-- C9 witness: a concrete unusable-token, failing-configurer input fails at
once with ErrRetryFailed and an empty list of dial attempts. -/
theorem c9_config_refresh_failure_witness :
    connectWithRetry i9cEx = (ConnResult.retryFailed, []) :=
  c9_config_refresh_failure i9cEx rfl rfl

/-- Dial oracle whose dial succeeds with a response carrying no headers at
all, in particular no public-URL header. -/
def d10Ex : Nat → DialOutcome := fun _ => .success ⟨101, fun _ => ""⟩

/-- Connector input for C10. -/
def i10Ex : ConnInput := ⟨true, true, pEx, d10Ex⟩

/-- C10: a dial that succeeds although the handshake response has no
x-webhooktunnel-client-url header is still reported as a success by the
Connector, the installed public URL is the empty string, and URL() on the
resulting client returns the empty string rather than an error. -/
theorem c10_missing_url_header :
    connectWithRetry i10Ex = (ConnResult.connected "", [0]) ∧
      New true i10Ex 5 = some ⟨CState.running, none, some 5, "", false⟩ ∧
      URL ⟨CState.running, none, some 5, "", false⟩ = "" :=
  ⟨rfl, rfl, rfl⟩

end Whclient
